import Mathlib

/-!
# SoulSync tunnel proxy (`SoulSync Backend Main/ngrok.go`)

A shallow embedding of the reverse proxy and of the tunnel life cycle of `ngrok.go`.

* Go strings are Lean strings; `strings.HasPrefix`, `strings.Contains` and
  `strings.HasSuffix` are defined on their character lists.
* `http.Header` (a Go `map[string][]string`) is an association list; the order of the
  list is the order in which `range` visits the map.
* The network, the file system and the process table are explicit parameters
  (`Client`, `ControlPlane`, `System`); a handler returns an `Outcome` that records
  what the client receives and which outbound requests were issued.
* Log output is not part of the model, except `log.Fatal`, which ends `main`.
-/

namespace SoulSync

/-! ## Go `strings` -/

namespace strings

/-- Go `strings.HasPrefix`: `len(s) >= len(prefix) && s[:len(prefix)] == prefix`. -/
def HasPrefix (s pre : String) : Bool :=
  decide (pre.length ≤ s.length) && (s.data.take pre.length == pre.data)

/-- Go `strings.HasSuffix`: `len(s) >= len(suffix) && s[len(s)-len(suffix):] == suffix`. -/
def HasSuffix (s suf : String) : Bool :=
  decide (suf.length ≤ s.length) && (s.data.drop (s.length - suf.length) == suf.data)

/-- Search for `sub` at every position of the remaining text, left to right. -/
def containsFrom (sub : List Char) : List Char → Bool
  | [] => sub.isEmpty
  | c :: cs => sub.isPrefixOf (c :: cs) || containsFrom sub cs

/-- Go `strings.Contains`: `Index(s, substr) >= 0`. -/
def Contains (s substr : String) : Bool :=
  containsFrom substr.data s.data

end strings

/-! ## `net/textproto` and `net/http` headers -/

/-- Go `validHeaderFieldByte`: the bytes of an RFC 7230 token, that is letters, digits and
``!#$%&'*+-.^_`|~``. -/
def validHeaderFieldByte (c : Char) : Bool :=
  c.isAlphanum ||
    [33, 35, 36, 37, 38, 39, 42, 43, 45, 46, 94, 95, 96, 124, 126].contains c.toNat

/-- The rewriting loop of Go `canonicalMIMEHeaderKey`: upper case for the first letter and
for a letter after a dash, lower case for every other letter. -/
def canonicalize : Bool → List Char → List Char
  | _, [] => []
  | upper, c :: cs =>
    let c1 := if upper then c.toUpper else c.toLower
    c1 :: canonicalize (c1 == '-') cs

/-- Go `textproto.CanonicalMIMEHeaderKey`: a key with a byte that is not a token byte is
returned unchanged, every other key is put in canonical case. -/
def CanonicalMIMEHeaderKey (s : String) : String :=
  if s.data.all validHeaderFieldByte then String.mk (canonicalize true s.data) else s

/-- Go `http.Header`, a `map[string][]string`. -/
abbrev Header := List (String × List String)

namespace Header

/-- Go `h[k]`: the values stored under `k`, the nil slice when `k` is absent. -/
def lookup : Header → String → List String
  | [], _ => []
  | (k1, vs) :: rest, k => if k1 = k then vs else lookup rest k

/-- Go `h[k] = vs`. -/
def store : Header → String → List String → Header
  | [], k, vs => [(k, vs)]
  | (k1, vs1) :: rest, k, vs =>
    if k1 = k then (k, vs) :: rest else (k1, vs1) :: store rest k vs

/-- Go `Header.Add`: `key = CanonicalMIMEHeaderKey(key); h[key] = append(h[key], value)`. -/
def Add (h : Header) (key value : String) : Header :=
  let k := CanonicalMIMEHeaderKey key
  h.store k (h.lookup k ++ [value])

/-- Go `Header.Set`: `h[CanonicalMIMEHeaderKey(key)] = []string{value}`. -/
def Set (h : Header) (key value : String) : Header :=
  h.store (CanonicalMIMEHeaderKey key) [value]

/-- Go `Header.Get`: the first value under the canonical key, `""` when there is none. -/
def Get (h : Header) (key : String) : String :=
  match h.lookup (CanonicalMIMEHeaderKey key) with
  | [] => ""
  | v :: _ => v

/-- The representation invariant of a header read off the wire: every key occurs once
(it is a map) and is stored in the form `CanonicalMIMEHeaderKey` leaves unchanged. -/
def Canonical (h : Header) : Prop :=
  (h.map Prod.fst).Nodup ∧ ∀ kv ∈ h, CanonicalMIMEHeaderKey kv.1 = kv.1

/-- All values that entries of `h` contribute to the canonical key `k`, in list order. -/
def gather : Header → String → List String
  | [], _ => []
  | (k1, vs) :: rest, k =>
    if CanonicalMIMEHeaderKey k1 = k then vs ++ gather rest k else gather rest k

end Header

/-- Source: `copyHeader`, lines 23-29. -/
def copyHeader (dst src : Header) : Header :=
  src.foldl (fun d kv => kv.2.foldl (fun d1 v => d1.Add kv.1 v) d) dst

/-! ## Requests, responses, the outside world -/

/-- Source: `LOCALHOST`, line 21. -/
def LOCALHOST : String := "localhost"

/-- The fields of Go `url.URL` the proxy reads or writes. -/
structure URL where
  Scheme : String
  Host : String
  Path : String
  RawQuery : String
deriving DecidableEq, Repr

/-- The start of `URL.String()`: scheme, `://`, host. -/
def URL.origin (u : URL) : String :=
  u.Scheme ++ "://" ++ u.Host

/-- Go `http.Request`; the body is the text its reader yields. -/
structure Request where
  Method : String
  URL : URL
  Header : Header
  Body : String
deriving DecidableEq, Repr

/-- Go `http.Response`. -/
structure Response where
  StatusCode : Nat
  Header : Header
  Body : String
deriving DecidableEq, Repr

/-- What an `http.Client` can do: `newRequestErr method url` is the error with which
`http.NewRequest` rejects its arguments (`none` when it accepts them), `Do` is the round
trip to the server. -/
structure Client where
  newRequestErr : String → URL → Option String
  Do : Request → Except String Response

/-- Go `http.NewRequest(method, url, body)`: an error and no request, or a request with
the given method (`GET` for the empty method), URL and body and with no header. -/
def Client.NewRequest (c : Client) (method : String) (url : URL) (body : String) :
    Except String Request :=
  match c.newRequestErr method url with
  | some err => .error err
  | none =>
    .ok { Method := if method = "" then "GET" else method, URL := url, Header := [], Body := body }

/-- Go `http.ResponseWriter`, as a recorder: the header map, the status line once it is
written, the body bytes written so far. -/
structure ResponseWriter where
  header : Header
  status : Option Nat
  body : String
deriving DecidableEq, Repr

namespace ResponseWriter

/-- The writer the server hands to a handler. -/
def fresh : ResponseWriter :=
  { header := [], status := none, body := "" }

/-- Go `WriteHeader`: the first call fixes the status, later calls are ignored. -/
def WriteHeader (w : ResponseWriter) (code : Nat) : ResponseWriter :=
  match w.status with
  | some _ => w
  | none => { w with status := some code }

/-- Go `Write`: an implicit `WriteHeader(200)` when no status is written yet, then the
bytes. -/
def Write (w : ResponseWriter) (b : String) : ResponseWriter :=
  let w1 := w.WriteHeader 200
  { w1 with body := w1.body ++ b }

end ResponseWriter

/-- Go `http.Error`: plain-text content type, `nosniff`, the status, then the message
followed by a newline (`fmt.Fprintln`). -/
def httpError (w : ResponseWriter) (error : String) (code : Nat) : ResponseWriter :=
  let h := (w.header.Set "Content-Type" "text/plain; charset=utf-8").Set
    "X-Content-Type-Options" "nosniff"
  (({ w with header := h }).WriteHeader code).Write (error ++ "\n")

/-- Source: `proxy`, lines 31-39. -/
structure proxy where
  webPort : String
  apiPort : String
  apiKey : String
  publicUrl : String
  authToken : String
  envFile : String
  address : String
deriving DecidableEq, Repr

/-- The observable result of one call of `ServeHTTP`. -/
structure Outcome where
  /-- The response writer when the handler stops. -/
  wr : ResponseWriter
  /-- The inbound request when the handler stops (`req.URL` is rewritten in place). -/
  req : Request
  /-- Method and URL of every `http.NewRequest` call. -/
  constructed : List (String × URL)
  /-- Every request handed to `client.Do`. -/
  sent : List Request
  /-- The run-time panic that ended the handler, if any. -/
  fault : Option String
deriving DecidableEq, Repr

/-- Source: `proxy.ServeHTTP`, lines 45-98. -/
def proxy.ServeHTTP (p : proxy) (client : Client) (wr : ResponseWriter) (req : Request) :
    Outcome :=
  if req.Method = "OPTIONS" then
    { wr := wr.WriteHeader 200, req := req, constructed := [], sent := [], fault := none }
  else
    let url := { req.URL with Scheme := "http" }
    let url :=
      if strings.HasPrefix url.Path "/api/v1" || strings.Contains url.Path "openapi" ||
          strings.HasSuffix url.Path "docs" then
        { url with Host := LOCALHOST ++ ":" ++ p.apiPort }
      else
        { url with Host := LOCALHOST ++ ":" ++ p.webPort }
    let req := { req with URL := url }
    let made := client.NewRequest req.Method req.URL req.Body
    let newreq : Option Request := made.toOption
    let err : Option String := match made with
      | .error e => some e
      | .ok _ => none
    -- line 69 reads `newreq.Header` before `err` is looked at
    match newreq with
    | none =>
      { wr := wr, req := req, constructed := [(req.Method, req.URL)], sent := [],
        fault := some "invalid memory address or nil pointer dereference" }
    | some newreq =>
      let newreq := { newreq with Header := copyHeader newreq.Header req.Header }
      match err with
      | some _ =>
        { wr := httpError wr "Server Error" 500, req := req,
          constructed := [(req.Method, req.URL)], sent := [], fault := none }
      | none =>
        let newreq := { newreq with Header := newreq.Header.Set "Accept" "*/*" }
        let newreq :=
          if strings.HasPrefix req.URL.Path "/api/v2" then
            let h := newreq.Header.Set "Authorization" (req.Header.Get "Authorization")
            { newreq with Header := h.Set "Referer" (req.Header.Get "Referer") }
          else newreq
        match client.Do newreq with
        | .error _ =>
          { wr := httpError wr "Server Error" 500, req := req,
            constructed := [(req.Method, req.URL)], sent := [newreq], fault := none }
        | .ok resp =>
          let resp := { resp with Header := resp.Header.Set "Access-Control-Allow-Origin" "*" }
          let wr := { wr with header := copyHeader wr.header resp.Header }
          let wr := wr.WriteHeader resp.StatusCode
          let wr := wr.Write resp.Body
          { wr := wr, req := req, constructed := [(req.Method, req.URL)], sent := [newreq],
            fault := none }

/-! ## Tunnel discovery -/

/-- Source: `Tunnel`, lines 100-104. -/
structure Tunnel where
  Id : String
  PublicURL : String
  Proto : String
deriving DecidableEq, Repr

/-- Source: `TunnelList`, lines 106-108. -/
structure TunnelList where
  Tunnels : List Tunnel
deriving DecidableEq, Repr

/-- The control plane as one `getTunnel` call sees it: the HTTP client, what
`io.ReadAll(resp.Body)` yields and what `json.Unmarshal` makes of the bytes. -/
structure ControlPlane extends Client where
  ReadAll : Response → Except String String
  Unmarshal : String → Except String TunnelList

/-- The URL `https://api.ngrok.com/tunnels` of line 113. -/
def tunnelsURL : URL :=
  { Scheme := "https", Host := "api.ngrok.com", Path := "/tunnels", RawQuery := "" }

/-- The loop of lines 138-143: the first tunnel whose `Proto` is `https` is stored in
`p.publicUrl` and returned; line 148 is reached when there is none. -/
def proxy.scanTunnels (p : proxy) : List Tunnel → (String × Option String) × proxy
  | [] => (("", none), p)
  | tunnel :: rest =>
    if tunnel.Proto = "https" then
      let p1 := { p with publicUrl := tunnel.PublicURL }
      ((p1.publicUrl, none), p1)
    else p.scanTunnels rest

/-- Source: `proxy.getTunnel`, lines 110-149. The result is the returned pair and the
receiver after the call. -/
def proxy.getTunnel (p : proxy) (api : ControlPlane) : (String × Option String) × proxy :=
  match api.toClient.NewRequest "GET" tunnelsURL "" with
  | .error err => (("", some err), p)
  | .ok req =>
    let req := { req with Header := req.Header.Add "Authorization" ("Bearer " ++ p.apiKey) }
    let req := { req with Header := req.Header.Add "ngrok-version" "2" }
    match api.Do req with
    | .error err => (("", some err), p)
    | .ok resp =>
      if resp.StatusCode = 200 then
        match api.ReadAll resp with
        | .error err => (("", some err), p)
        | .ok body =>
          match api.Unmarshal body with
          | .error err => (("", some err), p)
          | .ok tunnelList => p.scanTunnels tunnelList.Tunnels
      else
        (("", none), p)

/-! ## Process supervision and `main` -/

/-- What `main` does to the outside world, in order. -/
inductive Event where
  /-- A call `exec.LookPath(file)`. -/
  | lookPath (file : String)
  /-- A call `os.OpenFile(name, ...)`. -/
  | openFile (name : String)
  /-- A call `os.StartProcess(path, args, attr)`. -/
  | startProcess (path : String) (args : List String)
  /-- The goroutine of lines 176-182 that waits for the process. -/
  | watch (pid : Int)
  /-- A call `handler.getTunnel()` that returned `url`. -/
  | getTunnel (url : String)
  /-- A call `time.Sleep` of that many seconds. -/
  | sleep (seconds : Nat)
  /-- The goroutine of lines 284-290 calling `http.ListenAndServe(addr, handler)`. -/
  | listenAndServe (addr : String)
  /-- Blocking on the signal channel, line 295. -/
  | awaitSignal
  /-- The call `proc.Signal(syscall.SIGKILL)`. -/
  | kill (pid : Int)
  /-- A call `log.Fatal`: the message is logged and the process exits with status 1. -/
  | fatal (msg : String)
deriving DecidableEq, Repr

/-- The operating system and the network as `main` sees them; `api i` is the control
plane at the time of the `getTunnel` call of loop iteration `i`. -/
structure System where
  LookPath : String → Except String String
  OpenFile : String → Except String Unit
  StartProcess : String → List String → Except String Int
  api : Nat → ControlPlane

/-- Source: `proxy.startNgrok`, lines 151-185. The result is the pid of the started
process or the error, and the calls made. -/
def proxy.startNgrok (p : proxy) (sys : System) (port : String) :
    Except String Int × List Event :=
  match sys.LookPath "ngrok" with
  | .error err => (.error err, [.lookPath "ngrok"])
  | .ok path =>
    match sys.OpenFile "/dev/null" with
    | .error err => (.error err, [.lookPath "ngrok", .openFile "/dev/null"])
    | .ok _ =>
      let args := ["ngrok", "http", port, "--authtoken=" ++ p.authToken, "--log=./ngrok.log",
        "--log-format=logfmt"]
      match sys.StartProcess path args with
      | .error err =>
        (.error err, [.lookPath "ngrok", .openFile "/dev/null", .startProcess path args])
      | .ok pid =>
        (.ok pid,
          [.lookPath "ngrok", .openFile "/dev/null", .startProcess path args, .watch pid])

/-- The command-line values after `flag.Parse()`, line 254. -/
structure Flags where
  listen : String
  web : String
  api : String
  key : String
  token : String
  env : String
deriving DecidableEq, Repr

/-- The loop of lines 270-278, `for i := 0; i < 5; i++`, with `remaining = 5 - i`
iterations still to run. The result is the handler, the calls made, and whether
`log.Fatal` ended the program. -/
def pollTunnel (sys : System) : Nat → Nat → proxy → proxy × List Event × Bool
  | 0, _, handler => (handler, [], false)
  | remaining + 1, i, handler =>
    match handler.getTunnel (sys.api i) with
    | ((tunnel, some err), handler1) =>
      (handler1, [.getTunnel tunnel, .fatal ("Could not get tunnel" ++ err)], true)
    | ((tunnel, none), handler1) =>
      let pause : List Event := if tunnel = "" then [.sleep 1] else []
      let (handler2, events, exited) := pollTunnel sys remaining (i + 1) handler1
      (handler2, .getTunnel tunnel :: pause ++ events, exited)

/-- The handler of lines 256-262. -/
def Flags.handler (flags : Flags) : proxy :=
  { webPort := flags.web, apiPort := flags.api, apiKey := flags.key, publicUrl := "",
    authToken := flags.token, envFile := flags.env, address := "" }

/-- Source: `main`, lines 256-298, from the construction of the handler on. The values
of lines 204-254 (environment, `.env` file, flags) arrive resolved in `flags`. The result
is the sequence of calls `main` makes. -/
def main (flags : Flags) (sys : System) : List Event :=
  let handler : proxy := flags.handler
  match handler.startNgrok sys flags.listen with
  | (.error err, started) => started ++ [.fatal ("Could not start ngrok" ++ err)]
  | (.ok pid, started) =>
    if pid = -1 then started ++ [.fatal "Could not start ngrok<nil>"]
    else
      match pollTunnel sys 5 0 handler with
      | (_, polled, true) => started ++ polled
      | (_, polled, false) =>
        started ++ polled ++ [.listenAndServe ("0.0.0.0:" ++ flags.listen), .awaitSignal,
          .kill pid]

/-! ## Derived views of `ServeHTTP`, `getTunnel` and `main`, and sample data -/

/-- The inbound request after lines 61-66 of `ServeHTTP`. -/
def proxy.rewritten (p : proxy) (req : Request) : Request :=
  { req with
    URL :=
      { req.URL with
        Scheme := "http"
        Host :=
          if strings.HasPrefix req.URL.Path "/api/v1" || strings.Contains req.URL.Path "openapi" ||
              strings.HasSuffix req.URL.Path "docs" then
            LOCALHOST ++ ":" ++ p.apiPort
          else LOCALHOST ++ ":" ++ p.webPort } }

/-- The request `ServeHTTP` hands to `client.Do` (lines 68-81) once `http.NewRequest` has
accepted the rewritten URL. -/
def proxy.outbound (p : proxy) (req : Request) : Request :=
  let h := (copyHeader [] req.Header).Set "Accept" "*/*"
  { Method := if req.Method = "" then "GET" else req.Method
    URL := (p.rewritten req).URL
    Header :=
      if strings.HasPrefix req.URL.Path "/api/v2" then
        (h.Set "Authorization" (req.Header.Get "Authorization")).Set "Referer"
          (req.Header.Get "Referer")
      else h
    Body := req.Body }

/-- A proxy with the default ports of `main`. -/
def sampleProxy : proxy :=
  { webPort := "3000", apiPort := "8000", apiKey := "key", publicUrl := "", authToken := "token",
    envFile := "./.env", address := "" }

/-- A backend that answers every request with `204` and its own CORS header. -/
def sampleBackend : Client :=
  { newRequestErr := fun _ _ => none
    Do := fun _ =>
      .ok { StatusCode := 204,
            Header := [("Access-Control-Allow-Origin", ["https://example.org"]),
              ("Set-Cookie", ["a=1", "b=2"])],
            Body := "done" } }

/-- A backend that cannot be reached. -/
def deadBackend : Client :=
  { newRequestErr := fun _ _ => none
    Do := fun r => .error ("dial tcp " ++ r.URL.Host ++ ": connect: connection refused") }

/-- An inbound request for `path` with the given method and header. -/
def inbound (method path : String) (h : Header) : Request :=
  { Method := method, URL := { Scheme := "", Host := "", Path := path, RawQuery := "" },
    Header := h, Body := "" }

/-- A request with a repeated `Accept` and a repeated `Cookie` header. -/
def browserRequest : Request :=
  inbound "GET" "/dashboard"
    [("Accept", ["text/html", "application/json"]), ("Cookie", ["a=1", "b=2"])]

/-- A request under `/api/v2` that repeats the `Authorization` header. -/
def repeatedAuthorization : Request :=
  inbound "GET" "/api/v2/profile"
    [("Authorization", ["Bearer one", "Bearer two"]), ("Referer", ["https://example.org/"])]

/-- A request outside `/api/v2` that repeats the `Authorization` header. -/
def repeatedAuthorizationV1 : Request :=
  inbound "GET" "/api/v1/profile" [("Authorization", ["Bearer one", "Bearer two"])]

/-- Go `validOptionalPort` of `net/url`: empty, or a colon followed by digits only. -/
def validOptionalPort (port : List Char) : Bool :=
  match port with
  | [] => true
  | c :: rest => c == ':' && rest.all Char.isDigit

/-- The text of `host` from its last colon on, empty when it has no colon. -/
def colonPort : List Char → List Char
  | [] => []
  | c :: rest =>
    match colonPort rest with
    | [] => if c == ':' then c :: rest else []
    | found => found

/-- A client whose `http.NewRequest` rejects, as `url.Parse` does, a host whose port is
not a number, and whose backend answers `200`. -/
def portCheckingClient : Client :=
  { newRequestErr := fun _ u =>
      if validOptionalPort (colonPort u.Host.data) then none
      else some ("parse: invalid port " ++ String.mk (colonPort u.Host.data) ++ " after host")
    Do := fun _ => .ok { StatusCode := 200, Header := [], Body := "" } }

/-- A proxy started with `-web=web`. -/
def misconfiguredProxy : proxy :=
  { sampleProxy with webPort := "web" }

/-- The request `getTunnel` sends (lines 113-119). -/
def proxy.tunnelsRequest (p : proxy) : Request :=
  { Method := "GET", URL := tunnelsURL,
    Header := [("Authorization", ["Bearer " ++ p.apiKey]), ("Ngrok-Version", ["2"])],
    Body := "" }

/-- A control plane that answers every request with `status` and, for status 200, with
a body that decodes to `tunnels`. -/
def controlPlane (status : Nat) (tunnels : List Tunnel) : ControlPlane :=
  { newRequestErr := fun _ _ => none
    Do := fun _ => .ok { StatusCode := status, Header := [], Body := "json" }
    ReadAll := fun r => .ok r.Body
    Unmarshal := fun _ => .ok { Tunnels := tunnels } }

/-- A tunnel list with a `tcp` tunnel before two `https` tunnels. -/
def sampleTunnels : List Tunnel :=
  [{ Id := "tn_1", PublicURL := "tcp://0.tcp.ngrok.io:1", Proto := "tcp" },
   { Id := "tn_2", PublicURL := "https://a.ngrok.app", Proto := "https" },
   { Id := "tn_3", PublicURL := "https://b.ngrok.app", Proto := "https" }]

/-- Whether an event is a call of `getTunnel`. -/
def Event.isGetTunnel : Event → Bool
  | .getTunnel _ => true
  | _ => false

/-- Whether an event is the start of the HTTP listener. -/
def Event.isListen : Event → Bool
  | .listenAndServe _ => true
  | _ => false

/-- Whether an event is a call of `os.StartProcess`. -/
def Event.isStartProcess : Event → Bool
  | .startProcess _ _ => true
  | _ => false

/-- The default flags of `main`. -/
def sampleFlags : Flags :=
  { listen := "2100", web := "3000", api := "8000", key := "key", token := "token",
    env := "./.env" }

/-- A machine with the agent installed, where the tunnel is registered after the first
poll: the first `getTunnel` call finds no tunnel, every later call finds `sampleTunnels`. -/
def readySystem : System :=
  { LookPath := fun _ => .ok "/usr/local/bin/ngrok"
    OpenFile := fun _ => .ok ()
    StartProcess := fun _ _ => .ok 4242
    api := fun i => if i = 0 then controlPlane 200 [] else controlPlane 200 sampleTunnels }

/-- A machine without the agent on the search path. -/
def bareSystem : System :=
  { readySystem with
    LookPath := fun _ => .error "exec: \"ngrok\": executable file not found in $PATH" }

/-! ## Lemmas: strings -/

theorem strings.HasPrefix_iff (s pre : String) :
    strings.HasPrefix s pre = true ↔ pre.data <+: s.data := by
  unfold strings.HasPrefix
  simp only [Bool.and_eq_true, decide_eq_true_eq, beq_iff_eq, String.length]
  constructor
  · rintro ⟨_, h⟩
    rw [← h]
    exact List.take_prefix _ _
  · intro h
    exact ⟨h.length_le, (List.prefix_iff_eq_take.mp h).symm⟩

theorem strings.HasSuffix_iff (s suf : String) :
    strings.HasSuffix s suf = true ↔ suf.data <:+ s.data := by
  unfold strings.HasSuffix
  simp only [Bool.and_eq_true, decide_eq_true_eq, beq_iff_eq, String.length]
  constructor
  · rintro ⟨_, h⟩
    rw [← h]
    exact List.drop_suffix _ _
  · intro h
    exact ⟨h.length_le, (List.suffix_iff_eq_drop.mp h).symm⟩

theorem strings.containsFrom_iff (sub s : List Char) :
    strings.containsFrom sub s = true ↔ sub <:+: s := by
  induction s with
  | nil =>
    cases sub <;> simp [strings.containsFrom]
  | cons c cs ih =>
    simp only [strings.containsFrom, Bool.or_eq_true, List.isPrefixOf_iff_prefix, ih,
      List.infix_cons_iff]

theorem strings.Contains_iff (s substr : String) :
    strings.Contains s substr = true ↔ substr.data <:+: s.data :=
  strings.containsFrom_iff _ _

/-! ## Lemmas: headers -/

theorem Header.lookup_store (h : Header) (k k1 : String) (vs : List String) :
    Header.lookup (Header.store h k vs) k1 = if k = k1 then vs else Header.lookup h k1 := by
  induction h with
  | nil => simp [Header.store, Header.lookup]
  | cons e rest ih =>
    obtain ⟨k2, vs2⟩ := e
    by_cases h2 : k2 = k
    · subst h2
      by_cases h3 : k2 = k1 <;> simp [Header.store, Header.lookup, h3]
    · by_cases h3 : k2 = k1
      · subst h3
        have h4 : ¬ k = k2 := fun e => h2 e.symm
        simp [Header.store, Header.lookup, h2, h4]
      · simp [Header.store, Header.lookup, h2, h3, ih]

theorem Header.lookup_Set (h : Header) (key value k : String) :
    Header.lookup (Header.Set h key value) k =
      if CanonicalMIMEHeaderKey key = k then [value] else Header.lookup h k := by
  simp [Header.Set, Header.lookup_store]

theorem Header.lookup_Add (h : Header) (key value k : String) :
    Header.lookup (Header.Add h key value) k =
      if CanonicalMIMEHeaderKey key = k then Header.lookup h k ++ [value]
      else Header.lookup h k := by
  by_cases hk : CanonicalMIMEHeaderKey key = k
  · subst hk
    simp [Header.Add, Header.lookup_store]
  · simp [Header.Add, Header.lookup_store, hk]

theorem Header.lookup_foldl_Add (vs : List String) (d : Header) (key k : String) :
    Header.lookup (vs.foldl (fun d1 v => Header.Add d1 key v) d) k =
      if CanonicalMIMEHeaderKey key = k then Header.lookup d k ++ vs
      else Header.lookup d k := by
  induction vs generalizing d with
  | nil => simp
  | cons v rest ih =>
    simp only [List.foldl_cons, ih, Header.lookup_Add]
    by_cases hk : CanonicalMIMEHeaderKey key = k <;> simp [hk]

/-- Reading a key after `copyHeader`: what `dst` had, then every value `src` holds for
that canonical key, in the order `src` is visited. -/
theorem lookup_copyHeader (src dst : Header) (k : String) :
    Header.lookup (copyHeader dst src) k = Header.lookup dst k ++ Header.gather src k := by
  unfold copyHeader
  induction src generalizing dst with
  | nil => simp [Header.gather]
  | cons e rest ih =>
    obtain ⟨k1, vs⟩ := e
    simp only [List.foldl_cons, ih, Header.lookup_foldl_Add, Header.gather]
    by_cases hk : CanonicalMIMEHeaderKey k1 = k <;> simp [hk]

theorem Header.gather_eq_nil (h : Header) (k : String)
    (hc : ∀ kv ∈ h, CanonicalMIMEHeaderKey kv.1 = kv.1) (hk : k ∉ h.map Prod.fst) :
    Header.gather h k = [] := by
  induction h with
  | nil => rfl
  | cons e rest ih =>
    obtain ⟨k1, vs⟩ := e
    have h1 : CanonicalMIMEHeaderKey k1 = k1 := hc (k1, vs) (List.mem_cons_self _ _)
    have h2 : ¬ k1 = k := fun e => hk (by simp [e])
    have h3 : k ∉ rest.map Prod.fst := fun e => hk (by simp at e ⊢; exact Or.inr e)
    simp only [Header.gather, h1, h2, if_false]
    exact ih (fun kv hkv => hc kv (List.mem_cons_of_mem _ hkv)) h3

/-- On a header in canonical form, the values gathered for a key are the values stored
under it. -/
theorem Header.gather_eq_lookup (h : Header) (hc : Header.Canonical h) (k : String) :
    Header.gather h k = Header.lookup h k := by
  induction h with
  | nil => rfl
  | cons e rest ih =>
    obtain ⟨k1, vs⟩ := e
    obtain ⟨hnd, hcan⟩ := hc
    have h1 : CanonicalMIMEHeaderKey k1 = k1 := hcan (k1, vs) (List.mem_cons_self _ _)
    have hrest : ∀ kv ∈ rest, CanonicalMIMEHeaderKey kv.1 = kv.1 :=
      fun kv hkv => hcan kv (List.mem_cons_of_mem _ hkv)
    simp only [List.map_cons, List.nodup_cons] at hnd
    by_cases hk : k1 = k
    · subst hk
      simp [Header.gather, Header.lookup, h1, Header.gather_eq_nil rest k1 hrest hnd.1]
    · simp only [Header.gather, Header.lookup, h1, hk, if_false]
      exact ih ⟨hnd.2, hrest⟩

theorem Header.mem_gather (h : Header) (k1 k v : String) (vs : List String)
    (hm : (k1, vs) ∈ h) (hk : CanonicalMIMEHeaderKey k1 = k) (hv : v ∈ vs) :
    v ∈ Header.gather h k := by
  induction h with
  | nil => cases hm
  | cons e rest ih =>
    obtain ⟨k2, vs2⟩ := e
    rcases List.mem_cons.mp hm with heq | hin
    · cases heq
      simp [Header.gather, hk, hv]
    · by_cases h2 : CanonicalMIMEHeaderKey k2 = k
      · simp [Header.gather, h2, ih hin]
      · simp [Header.gather, h2, ih hin]

theorem Header.mem_store (h : Header) (k : String) (vs : List String) :
    (k, vs) ∈ Header.store h k vs := by
  induction h with
  | nil => simp [Header.store]
  | cons e rest ih =>
    obtain ⟨k2, vs2⟩ := e
    by_cases h2 : k2 = k <;> simp [Header.store, h2, ih]

theorem Header.keys_store (h : Header) (k : String) (vs : List String) :
    (Header.store h k vs).map Prod.fst =
      if k ∈ h.map Prod.fst then h.map Prod.fst else h.map Prod.fst ++ [k] := by
  induction h with
  | nil => simp [Header.store]
  | cons e rest ih =>
    obtain ⟨k2, vs2⟩ := e
    by_cases h2 : k2 = k
    · subst h2
      simp [Header.store]
    · have h3 : ¬ k = k2 := fun e => h2 e.symm
      simp only [Header.store, h2, if_false, List.map_cons, ih, List.mem_cons, h3, false_or]
      split <;> simp

theorem Header.mem_store_iff (h : Header) (k : String) (vs : List String)
    (kv : String × List String) (hkv : kv ∈ Header.store h k vs) :
    kv = (k, vs) ∨ kv ∈ h := by
  induction h with
  | nil =>
    simp only [Header.store, List.mem_singleton] at hkv
    exact Or.inl hkv
  | cons e rest ih =>
    obtain ⟨k2, vs2⟩ := e
    by_cases h2 : k2 = k
    · simp only [Header.store, h2, if_true, List.mem_cons] at hkv
      rcases hkv with h | h
      · exact Or.inl h
      · exact Or.inr (List.mem_cons_of_mem _ h)
    · simp only [Header.store, h2, if_false, List.mem_cons] at hkv
      rcases hkv with h | h
      · exact Or.inr (by simp [h])
      · rcases ih h with h | h
        · exact Or.inl h
        · exact Or.inr (List.mem_cons_of_mem _ h)

/-- Storing under a canonical key keeps a header in canonical form. -/
theorem Header.Canonical_store (h : Header) (hc : Header.Canonical h) (k : String)
    (hk : CanonicalMIMEHeaderKey k = k) (vs : List String) :
    Header.Canonical (Header.store h k vs) := by
  obtain ⟨hnd, hcan⟩ := hc
  refine ⟨?_, ?_⟩
  · rw [Header.keys_store]
    split
    · exact hnd
    · rename_i hn
      exact List.Nodup.append hnd (List.nodup_singleton k) (by simpa using hn)
  · intro kv hkv
    rcases Header.mem_store_iff h k vs kv hkv with h1 | h1
    · rw [h1]; exact hk
    · exact hcan kv h1

theorem ServeHTTP_preflight (p : proxy) (client : Client) (wr : ResponseWriter)
    (req : Request) (hm : req.Method = "OPTIONS") :
    p.ServeHTTP client wr req =
      { wr := wr.WriteHeader 200, req := req, constructed := [], sent := [], fault := none } := by
  unfold proxy.ServeHTTP
  simp only [hm, if_true]

theorem ServeHTTP_construction_fails (p : proxy) (client : Client) (wr : ResponseWriter)
    (req : Request) (e : String) (hm : req.Method ≠ "OPTIONS")
    (hn : client.newRequestErr req.Method (p.rewritten req).URL = some e) :
    p.ServeHTTP client wr req =
      { wr := wr, req := p.rewritten req,
        constructed := [(req.Method, (p.rewritten req).URL)], sent := [],
        fault := some "invalid memory address or nil pointer dereference" } := by
  unfold proxy.rewritten at hn
  unfold proxy.ServeHTTP Client.NewRequest proxy.rewritten
  cases hc : (strings.HasPrefix req.URL.Path "/api/v1" || strings.Contains req.URL.Path "openapi" ||
    strings.HasSuffix req.URL.Path "docs")
  all_goals
    simp only [hc, Bool.false_eq_true, if_true, if_false] at hn
    simp only [hm, hc, Bool.false_eq_true, if_true, if_false, hn, Except.toOption]

theorem ServeHTTP_transport_fails (p : proxy) (client : Client) (wr : ResponseWriter)
    (req : Request) (e : String) (hm : req.Method ≠ "OPTIONS")
    (hn : client.newRequestErr req.Method (p.rewritten req).URL = none)
    (hd : client.Do (p.outbound req) = .error e) :
    p.ServeHTTP client wr req =
      { wr := httpError wr "Server Error" 500, req := p.rewritten req,
        constructed := [(req.Method, (p.rewritten req).URL)], sent := [p.outbound req],
        fault := none } := by
  unfold proxy.outbound at hd
  unfold proxy.rewritten at hn hd
  unfold proxy.ServeHTTP Client.NewRequest proxy.outbound proxy.rewritten
  cases hc : (strings.HasPrefix req.URL.Path "/api/v1" || strings.Contains req.URL.Path "openapi" ||
    strings.HasSuffix req.URL.Path "docs") <;>
  cases h2 : strings.HasPrefix req.URL.Path "/api/v2"
  all_goals
    simp only [hc, h2, Bool.false_eq_true, if_true, if_false] at hn hd
    simp only [hm, hc, h2, Bool.false_eq_true, if_true, if_false, hn, hd, Except.toOption]

theorem ServeHTTP_relays (p : proxy) (client : Client) (wr : ResponseWriter)
    (req : Request) (resp : Response) (hm : req.Method ≠ "OPTIONS")
    (hn : client.newRequestErr req.Method (p.rewritten req).URL = none)
    (hd : client.Do (p.outbound req) = .ok resp) :
    p.ServeHTTP client wr req =
      { wr :=
          (({ wr with
              header :=
                copyHeader wr.header (resp.Header.Set "Access-Control-Allow-Origin" "*") }
            ).WriteHeader resp.StatusCode).Write resp.Body,
        req := p.rewritten req,
        constructed := [(req.Method, (p.rewritten req).URL)], sent := [p.outbound req],
        fault := none } := by
  unfold proxy.outbound at hd
  unfold proxy.rewritten at hn hd
  unfold proxy.ServeHTTP Client.NewRequest proxy.outbound proxy.rewritten
  cases hc : (strings.HasPrefix req.URL.Path "/api/v1" || strings.Contains req.URL.Path "openapi" ||
    strings.HasSuffix req.URL.Path "docs") <;>
  cases h2 : strings.HasPrefix req.URL.Path "/api/v2"
  all_goals
    simp only [hc, h2, Bool.false_eq_true, if_true, if_false] at hn hd
    simp only [hm, hc, h2, Bool.false_eq_true, if_true, if_false, hn, hd, Except.toOption]

/-- Whatever happens after the rewrite of lines 61-66, the handler leaves the rewritten
request behind, has called `http.NewRequest` once, and has sent nothing or the one
outbound request. -/
theorem ServeHTTP_shape (p : proxy) (client : Client) (wr : ResponseWriter)
    (req : Request) (hm : req.Method ≠ "OPTIONS") :
    (p.ServeHTTP client wr req).req = p.rewritten req ∧
    (p.ServeHTTP client wr req).constructed = [(req.Method, (p.rewritten req).URL)] ∧
    ((p.ServeHTTP client wr req).sent = [] ∨
      (client.newRequestErr req.Method (p.rewritten req).URL = none ∧
        (p.ServeHTTP client wr req).sent = [p.outbound req])) := by
  cases hn : client.newRequestErr req.Method (p.rewritten req).URL with
  | some e =>
    rw [ServeHTTP_construction_fails p client wr req e hm hn]
    exact ⟨rfl, rfl, Or.inl rfl⟩
  | none =>
    cases hd : client.Do (p.outbound req) with
    | error e =>
      rw [ServeHTTP_transport_fails p client wr req e hm hn hd]
      exact ⟨rfl, rfl, Or.inr ⟨rfl, rfl⟩⟩
    | ok resp =>
      rw [ServeHTTP_relays p client wr req resp hm hn hd]
      exact ⟨rfl, rfl, Or.inr ⟨rfl, rfl⟩⟩

theorem origin_localhost (u : URL) (port : String) :
    ({ u with Scheme := "http", Host := LOCALHOST ++ ":" ++ port } : URL).origin =
      "http://localhost:" ++ port := by
  simp only [URL.origin, LOCALHOST]
  apply String.ext
  simp [String.data_append]

theorem rewritten_origin (p : proxy) (req : Request) :
    (p.rewritten req).URL.origin =
      "http://localhost:" ++
        (if strings.HasPrefix req.URL.Path "/api/v1" || strings.Contains req.URL.Path "openapi" ||
            strings.HasSuffix req.URL.Path "docs" then p.apiPort else p.webPort) := by
  unfold proxy.rewritten
  split
  · rename_i h
    simp only [h, if_true]
    exact origin_localhost req.URL p.apiPort
  · rename_i h
    simp only [h, if_false]
    exact origin_localhost req.URL p.webPort

/-! ## Lemmas: the outbound request, `getTunnel`, `main` -/

theorem canonical_Accept : CanonicalMIMEHeaderKey "Accept" = "Accept" := by decide

theorem canonical_Authorization :
    CanonicalMIMEHeaderKey "Authorization" = "Authorization" := by decide

theorem canonical_Referer : CanonicalMIMEHeaderKey "Referer" = "Referer" := by decide

theorem canonical_AllowOrigin :
    CanonicalMIMEHeaderKey "Access-Control-Allow-Origin" = "Access-Control-Allow-Origin" := by
  decide

theorem Header.Canonical_Set (h : Header) (hc : Header.Canonical h) (key value : String)
    (hk : CanonicalMIMEHeaderKey key = key) : Header.Canonical (Header.Set h key value) := by
  unfold Header.Set
  rw [hk]
  exact Header.Canonical_store h hc key hk [value]

theorem httpError_fresh :
    (httpError ResponseWriter.fresh "Server Error" 500).status = some 500 ∧
    (httpError ResponseWriter.fresh "Server Error" 500).body = "Server Error\n" := by
  decide

/-- A request that was sent is the outbound request, and `http.NewRequest` accepted it. -/
theorem ServeHTTP_sent (p : proxy) (client : Client) (wr : ResponseWriter)
    (req out : Request) (hm : req.Method ≠ "OPTIONS")
    (hs : out ∈ (p.ServeHTTP client wr req).sent) :
    out = p.outbound req ∧ client.newRequestErr req.Method (p.rewritten req).URL = none := by
  rcases (ServeHTTP_shape p client wr req hm).2.2 with h | ⟨hn, h⟩
  · rw [h] at hs; cases hs
  · rw [h] at hs
    exact ⟨List.mem_singleton.mp hs, hn⟩

/-- The header of the outbound request, key by key, for a path outside `/api/v2`. -/
theorem outbound_lookup_plain (p : proxy) (req : Request)
    (h2 : strings.HasPrefix req.URL.Path "/api/v2" = false) (k : String) :
    (p.outbound req).Header.lookup k =
      if k = "Accept" then ["*/*"] else Header.gather req.Header k := by
  unfold proxy.outbound
  simp only [h2, Bool.false_eq_true, if_false]
  rw [Header.lookup_Set, canonical_Accept, lookup_copyHeader]
  by_cases hk : k = "Accept"
  · rw [if_pos hk.symm, if_pos hk]
  · rw [if_neg (fun e => hk e.symm), if_neg hk]
    rfl

/-- The header of the outbound request, key by key, for a path under `/api/v2`. -/
theorem outbound_lookup_v2 (p : proxy) (req : Request)
    (h2 : strings.HasPrefix req.URL.Path "/api/v2" = true) (k : String) :
    (p.outbound req).Header.lookup k =
      if k = "Referer" then [req.Header.Get "Referer"]
      else if k = "Authorization" then [req.Header.Get "Authorization"]
      else if k = "Accept" then ["*/*"] else Header.gather req.Header k := by
  unfold proxy.outbound
  simp only [h2, if_true]
  rw [Header.lookup_Set, canonical_Referer, Header.lookup_Set, canonical_Authorization,
    Header.lookup_Set, canonical_Accept, lookup_copyHeader]
  by_cases h1 : k = "Referer"
  · rw [if_pos h1.symm, if_pos h1]
  · rw [if_neg (fun e => h1 e.symm), if_neg h1]
    by_cases h3 : k = "Authorization"
    · rw [if_pos h3.symm, if_pos h3]
    · rw [if_neg (fun e => h3 e.symm), if_neg h3]
      by_cases h4 : k = "Accept"
      · rw [if_pos h4.symm, if_pos h4]
      · rw [if_neg (fun e => h4 e.symm), if_neg h4]
        rfl

theorem HasPrefix_eq_false (s pre : String) (h : ¬ pre.data <+: s.data) :
    strings.HasPrefix s pre = false := by
  cases hc : strings.HasPrefix s pre
  · rfl
  · exact absurd ((strings.HasPrefix_iff s pre).mp hc) h

theorem Get_of_lookup (h : Header) (key v : String) (vs : List String)
    (hk : CanonicalMIMEHeaderKey key = key) (hl : h.lookup key = v :: vs) :
    h.Get key = v := by
  unfold Header.Get
  rw [hk, hl]

/-- Whenever `http.NewRequest` returns an error, `ServeHTTP` panics at line 69 before it
looks at the error: the branch of lines 70-74 that answers 500 is never taken. -/
theorem ServeHTTP_construction_error_never_answered (p : proxy) (client : Client)
    (wr : ResponseWriter) (req : Request) (e : String) (hm : req.Method ≠ "OPTIONS")
    (hn : client.newRequestErr req.Method (p.ServeHTTP client wr req).req.URL = some e) :
    (p.ServeHTTP client wr req).fault =
      some "invalid memory address or nil pointer dereference" ∧
    (p.ServeHTTP client wr req).wr = wr ∧ (p.ServeHTTP client wr req).sent = [] := by
  rw [(ServeHTTP_shape p client wr req hm).1] at hn
  rw [ServeHTTP_construction_fails p client wr req e hm hn]
  exact ⟨rfl, rfl, rfl⟩

theorem scanTunnels_first (p : proxy) (before after : List Tunnel) (t : Tunnel)
    (hb : ∀ x ∈ before, x.Proto ≠ "https") (ht : t.Proto = "https") :
    p.scanTunnels (before ++ t :: after) =
      ((t.PublicURL, none), { p with publicUrl := t.PublicURL }) := by
  induction before with
  | nil => simp [proxy.scanTunnels, ht]
  | cons x rest ih =>
    have hx : x.Proto ≠ "https" := hb x (List.mem_cons_self _ _)
    simp only [List.cons_append, proxy.scanTunnels, hx, if_false]
    exact ih (fun y hy => hb y (List.mem_cons_of_mem _ hy))

theorem scanTunnels_none (p : proxy) (ts : List Tunnel)
    (hb : ∀ x ∈ ts, x.Proto ≠ "https") :
    p.scanTunnels ts = (("", none), p) := by
  induction ts with
  | nil => rfl
  | cons x rest ih =>
    have hx : x.Proto ≠ "https" := hb x (List.mem_cons_self _ _)
    simp only [proxy.scanTunnels, hx, if_false]
    exact ih (fun y hy => hb y (List.mem_cons_of_mem _ hy))

theorem getTunnel_responded (p : proxy) (api : ControlPlane) (resp : Response)
    (hn : api.newRequestErr "GET" tunnelsURL = none)
    (hd : api.Do p.tunnelsRequest = .ok resp) :
    p.getTunnel api =
      if resp.StatusCode = 200 then
        match api.ReadAll resp with
        | .error err => (("", some err), p)
        | .ok body =>
          match api.Unmarshal body with
          | .error err => (("", some err), p)
          | .ok tunnelList => p.scanTunnels tunnelList.Tunnels
      else (("", none), p) := by
  have hd1 : api.Do
      { Method := "GET", URL := tunnelsURL,
        Header := Header.Add (Header.Add [] "Authorization" ("Bearer " ++ p.apiKey))
          "ngrok-version" "2",
        Body := "" } = .ok resp := hd
  unfold proxy.getTunnel Client.NewRequest
  simp only [hn]
  simp only [if_neg (show ¬ ("GET" = "") by decide)]
  rw [hd1]

/-- Without an error from `getTunnel`, the loop of lines 270-278 calls it once per
iteration, whatever the calls return. -/
theorem pollTunnel_calls (sys : System) (remaining i : Nat) (handler : proxy)
    (hok : ∀ j h, (proxy.getTunnel h (sys.api j)).1.2 = none) :
    ((pollTunnel sys remaining i handler).2.1.filter Event.isGetTunnel).length = remaining ∧
    (pollTunnel sys remaining i handler).2.2 = false := by
  induction remaining generalizing i handler with
  | zero => exact ⟨rfl, rfl⟩
  | succ n ih =>
    have h1 := hok i handler
    unfold pollTunnel
    rcases hg : proxy.getTunnel handler (sys.api i) with ⟨⟨tunnel, err⟩, handler1⟩
    rw [hg] at h1
    simp only at h1
    subst h1
    obtain ⟨ih1, ih2⟩ := ih (i + 1) handler1
    simp only
    refine ⟨?_, ih2⟩
    by_cases ht : tunnel = ""
    · simp [ht, Event.isGetTunnel, List.filter_cons, ih1]
    · simp [ht, Event.isGetTunnel, List.filter_cons, ih1]

/-- On a machine where the agent starts and `getTunnel` never fails, `main` calls
`getTunnel` exactly five times. -/
theorem main_polls_five_times (flags : Flags) (sys : System) (pid : Int)
    (started : List Event)
    (hs : flags.handler.startNgrok sys flags.listen = (.ok pid, started)) (hp : pid ≠ -1)
    (hok : ∀ j h, (proxy.getTunnel h (sys.api j)).1.2 = none) :
    ((main flags sys).filter Event.isGetTunnel).length =
      (started.filter Event.isGetTunnel).length + 5 := by
  obtain ⟨h1, h2⟩ := pollTunnel_calls sys 5 0 flags.handler hok
  unfold main
  simp only [hs, hp, if_false]
  rcases hq : pollTunnel sys 5 0 flags.handler with ⟨handler2, polled, exited⟩
  rw [hq] at h1 h2
  simp only at h1 h2
  subst h2
  simp [List.filter_append, h1, Event.isListen, Event.isGetTunnel]

/-- After a failed `startNgrok`, `main` calls `log.Fatal` right away. -/
theorem main_start_failed (flags : Flags) (sys : System) (e : String)
    (started : List Event)
    (hs : flags.handler.startNgrok sys flags.listen = (.error e, started)) :
    main flags sys = started ++ [.fatal ("Could not start ngrok" ++ e)] := by
  unfold main
  simp only [hs]

/-- The calls of `startNgrok` contain no `getTunnel` and no `ListenAndServe`. -/
theorem startNgrok_events (p : proxy) (sys : System) (port : String) :
    ∀ ev ∈ (p.startNgrok sys port).2, ev.isGetTunnel = false ∧ ev.isListen = false := by
  unfold proxy.startNgrok
  cases sys.LookPath "ngrok" with
  | error e => simp [Event.isGetTunnel, Event.isListen]
  | ok path =>
    cases sys.OpenFile "/dev/null" with
    | error e => simp [Event.isGetTunnel, Event.isListen]
    | ok u =>
      simp only
      cases sys.StartProcess path ["ngrok", "http", port, "--authtoken=" ++ p.authToken,
          "--log=./ngrok.log", "--log-format=logfmt"] with
      | error e => simp [Event.isGetTunnel, Event.isListen]
      | ok pid => simp [Event.isGetTunnel, Event.isListen]

/-! ## Claims -/

/-- C1: for every request whose method is not `OPTIONS`, `ServeHTTP` leaves the path
alone, calls `http.NewRequest` once with the rewritten URL, and sends no request with
another URL; the URL starts with `http://localhost:<apiPort>` when the path starts with
`/api/v1`, contains `openapi` or ends with `docs`, and with `http://localhost:<webPort>`
for every other path. In particular `/api/v1/users` and `/openapi.json` go to the API
backend and `/dashboard` goes to the web backend. -/
theorem ServeHTTP_routes_by_path (p : proxy) (client : Client) (wr : ResponseWriter)
    (req : Request) (hm : req.Method ≠ "OPTIONS") :
    (p.ServeHTTP client wr req).req.URL.Path = req.URL.Path ∧
    (p.ServeHTTP client wr req).constructed =
      [(req.Method, (p.ServeHTTP client wr req).req.URL)] ∧
    (∀ out ∈ (p.ServeHTTP client wr req).sent,
      out.URL = (p.ServeHTTP client wr req).req.URL) ∧
    (("/api/v1".data <+: req.URL.Path.data ∨ "openapi".data <:+: req.URL.Path.data ∨
        "docs".data <:+ req.URL.Path.data) →
      (p.ServeHTTP client wr req).req.URL.origin = "http://localhost:" ++ p.apiPort) ∧
    (¬ ("/api/v1".data <+: req.URL.Path.data ∨ "openapi".data <:+: req.URL.Path.data ∨
        "docs".data <:+ req.URL.Path.data) →
      (p.ServeHTTP client wr req).req.URL.origin = "http://localhost:" ++ p.webPort) ∧
    (req.URL.Path = "/api/v1/users" →
      (p.ServeHTTP client wr req).req.URL.origin = "http://localhost:" ++ p.apiPort) ∧
    (req.URL.Path = "/openapi.json" →
      (p.ServeHTTP client wr req).req.URL.origin = "http://localhost:" ++ p.apiPort) ∧
    (req.URL.Path = "/dashboard" →
      (p.ServeHTTP client wr req).req.URL.origin = "http://localhost:" ++ p.webPort) := by
  obtain ⟨hreq, hcons, hsent⟩ := ServeHTTP_shape p client wr req hm
  rw [hreq, hcons]
  simp only [rewritten_origin]
  refine ⟨rfl, trivial, ?_, ?_, ?_, ?_, ?_, ?_⟩
  · intro out hout
    rcases hsent with h | ⟨_, h⟩
    · rw [h] at hout; cases hout
    · rw [h] at hout
      rw [List.mem_singleton.mp hout]
      rfl
  · intro h
    have hc : (strings.HasPrefix req.URL.Path "/api/v1" ||
        strings.Contains req.URL.Path "openapi" ||
        strings.HasSuffix req.URL.Path "docs") = true := by
      rcases h with h | h | h
      · rw [(strings.HasPrefix_iff _ _).mpr h]; rfl
      · rw [(strings.Contains_iff _ _).mpr h]; simp
      · rw [(strings.HasSuffix_iff _ _).mpr h]; simp
    rw [if_pos hc]
  · intro h
    have hc : ¬ (strings.HasPrefix req.URL.Path "/api/v1" ||
        strings.Contains req.URL.Path "openapi" ||
        strings.HasSuffix req.URL.Path "docs") = true := by
      intro hc
      simp only [Bool.or_eq_true] at hc
      rcases hc with (hc | hc) | hc
      · exact h (Or.inl ((strings.HasPrefix_iff _ _).mp hc))
      · exact h (Or.inr (Or.inl ((strings.Contains_iff _ _).mp hc)))
      · exact h (Or.inr (Or.inr ((strings.HasSuffix_iff _ _).mp hc)))
    rw [if_neg hc]
  · intro h
    rw [h, if_pos (by decide)]
  · intro h
    rw [h, if_pos (by decide)]
  · intro h
    rw [h, if_neg (by decide)]

theorem ServeHTTP_routes_by_path_witness :
    ((inbound "GET" "/v3/api-docs" []).Method ≠ "OPTIONS" ∧
      (sampleProxy.ServeHTTP sampleBackend ResponseWriter.fresh
          (inbound "GET" "/v3/api-docs" [])).req.URL.origin = "http://localhost:8000") ∧
    ((inbound "POST" "/api/v2/orders" []).Method ≠ "OPTIONS" ∧
      (sampleProxy.ServeHTTP sampleBackend ResponseWriter.fresh
          (inbound "POST" "/api/v2/orders" [])).req.URL.origin = "http://localhost:3000") :=
  ⟨⟨by decide,
      (ServeHTTP_routes_by_path sampleProxy sampleBackend ResponseWriter.fresh
        (inbound "GET" "/v3/api-docs" []) (by decide)).2.2.2.1 (by decide)⟩,
    ⟨by decide,
      (ServeHTTP_routes_by_path sampleProxy sampleBackend ResponseWriter.fresh
        (inbound "POST" "/api/v2/orders" []) (by decide)).2.2.2.2.1 (by decide)⟩⟩

/-- C2: a request whose method is `OPTIONS`, whatever its path, header and body, is
answered with status 200 and an empty body, and `ServeHTTP` neither builds nor sends an
outbound request for it. -/
theorem ServeHTTP_preflight_no_backend (p : proxy) (client : Client) (req : Request)
    (hm : req.Method = "OPTIONS") :
    (p.ServeHTTP client ResponseWriter.fresh req).wr.status = some 200 ∧
    (p.ServeHTTP client ResponseWriter.fresh req).wr.body = "" ∧
    (p.ServeHTTP client ResponseWriter.fresh req).wr.header = [] ∧
    (p.ServeHTTP client ResponseWriter.fresh req).constructed = [] ∧
    (p.ServeHTTP client ResponseWriter.fresh req).sent = [] ∧
    (p.ServeHTTP client ResponseWriter.fresh req).fault = none := by
  rw [ServeHTTP_preflight p client ResponseWriter.fresh req hm]
  exact ⟨rfl, rfl, rfl, rfl, rfl, rfl⟩

theorem ServeHTTP_preflight_no_backend_witness :
    (inbound "OPTIONS" "/anything" [("Origin", ["https://example.org"])]).Method = "OPTIONS" ∧
    (sampleProxy.ServeHTTP deadBackend ResponseWriter.fresh
        (inbound "OPTIONS" "/anything" [("Origin", ["https://example.org"])])).wr.status =
      some 200 :=
  ⟨rfl,
    (ServeHTTP_preflight_no_backend sampleProxy deadBackend
      (inbound "OPTIONS" "/anything" [("Origin", ["https://example.org"])]) rfl).1⟩

/-- C3, not met by the code: the loop of lines 270-278 has no `break`. On a machine where
the first poll finds no tunnel and the second finds `https://a.ngrok.app`, `main` sleeps
one second after the empty result and then calls `getTunnel` three more times after the
call that returned the URL, five calls in all. -/
theorem main_polls_after_tunnel_found :
    main sampleFlags readySystem =
      [.lookPath "ngrok", .openFile "/dev/null",
        .startProcess "/usr/local/bin/ngrok"
          ["ngrok", "http", "2100", "--authtoken=token", "--log=./ngrok.log",
            "--log-format=logfmt"],
        .watch 4242,
        .getTunnel "", .sleep 1,
        .getTunnel "https://a.ngrok.app", .getTunnel "https://a.ngrok.app",
        .getTunnel "https://a.ngrok.app", .getTunnel "https://a.ngrok.app",
        .listenAndServe "0.0.0.0:2100", .awaitSignal, .kill 4242] := by
  decide

/-- C4, not met by the code: with the web port set to `web`, `http.NewRequest` rejects the
URL `http://localhost:web/dashboard`; `ServeHTTP` then reads `newreq.Header` of the nil
request at line 69 and panics, so nothing is written to the client: no status 500 and no
`Server Error` body. -/
theorem ServeHTTP_construction_error_panics :
    (inbound "GET" "/dashboard" []).Method ≠ "OPTIONS" ∧
    portCheckingClient.newRequestErr "GET"
        { Scheme := "http", Host := "localhost:web", Path := "/dashboard", RawQuery := "" } =
      some "parse: invalid port :web after host" ∧
    misconfiguredProxy.ServeHTTP portCheckingClient ResponseWriter.fresh
        (inbound "GET" "/dashboard" []) =
      { wr := { header := [], status := none, body := "" },
        req :=
          { Method := "GET",
            URL := { Scheme := "http", Host := "localhost:web", Path := "/dashboard",
                     RawQuery := "" },
            Header := [], Body := "" },
        constructed :=
          [("GET", { Scheme := "http", Host := "localhost:web", Path := "/dashboard",
                     RawQuery := "" })],
        sent := [],
        fault := some "invalid memory address or nil pointer dereference" } :=
  ⟨by decide, by decide, by decide⟩

/-- C5, as stated, does not hold: for the path `/api/v2/profile` and an inbound request with two
`Authorization` values, the request sent to the backend carries the first value only. -/
theorem ServeHTTP_v2_keeps_first_authorization_only :
    repeatedAuthorization.Method ≠ "OPTIONS" ∧
    strings.HasPrefix repeatedAuthorization.URL.Path "/api/v2" = true ∧
    Header.Canonical repeatedAuthorization.Header ∧
    (sampleProxy.ServeHTTP sampleBackend ResponseWriter.fresh repeatedAuthorization).sent =
      [{ Method := "GET",
         URL := { Scheme := "http", Host := "localhost:3000", Path := "/api/v2/profile",
                  RawQuery := "" },
         Header := [("Authorization", ["Bearer one"]), ("Referer", ["https://example.org/"]),
           ("Accept", ["*/*"])],
         Body := "" }] ∧
    repeatedAuthorization.Header.lookup "Authorization" = ["Bearer one", "Bearer two"] ∧
    Header.lookup [("Authorization", ["Bearer one"]), ("Referer", ["https://example.org/"]),
        ("Accept", ["*/*"])] "Authorization" ≠
      repeatedAuthorization.Header.lookup "Authorization" :=
  ⟨by decide, by decide, ⟨by decide, by decide⟩, by decide, by decide, by decide⟩

/-- C5 (amended): for a request that is not `OPTIONS` and whose path starts with
`/api/v2`, an `Authorization` or `Referer` header present on the inbound request is sent
with exactly one value, the first inbound value; for every other path, and an inbound
header in canonical form, the outbound `Authorization` and `Referer` values are exactly
the inbound values. -/
theorem ServeHTTP_authorization_referer (p : proxy) (client : Client) (wr : ResponseWriter)
    (req out : Request) (hm : req.Method ≠ "OPTIONS")
    (hs : out ∈ (p.ServeHTTP client wr req).sent) :
    ("/api/v2".data <+: req.URL.Path.data →
      (∀ v vs, req.Header.lookup "Authorization" = v :: vs →
        out.Header.lookup "Authorization" = [v]) ∧
      (∀ v vs, req.Header.lookup "Referer" = v :: vs →
        out.Header.lookup "Referer" = [v])) ∧
    (¬ "/api/v2".data <+: req.URL.Path.data → Header.Canonical req.Header →
      out.Header.lookup "Authorization" = req.Header.lookup "Authorization" ∧
      out.Header.lookup "Referer" = req.Header.lookup "Referer") := by
  obtain ⟨ho, _⟩ := ServeHTTP_sent p client wr req out hm hs
  subst ho
  refine ⟨?_, ?_⟩
  · intro h2
    have ht := (strings.HasPrefix_iff req.URL.Path "/api/v2").mpr h2
    refine ⟨?_, ?_⟩
    · intro v vs hl
      rw [outbound_lookup_v2 p req ht, if_neg (by decide), if_pos rfl,
        Get_of_lookup _ _ v vs canonical_Authorization hl]
    · intro v vs hl
      rw [outbound_lookup_v2 p req ht, if_pos rfl,
        Get_of_lookup _ _ v vs canonical_Referer hl]
  · intro h2 hc
    have hf := HasPrefix_eq_false req.URL.Path "/api/v2" h2
    refine ⟨?_, ?_⟩
    · rw [outbound_lookup_plain p req hf, if_neg (by decide), Header.gather_eq_lookup _ hc]
    · rw [outbound_lookup_plain p req hf, if_neg (by decide), Header.gather_eq_lookup _ hc]

theorem ServeHTTP_authorization_referer_witness :
    (repeatedAuthorization.Method ≠ "OPTIONS" ∧
      (sampleProxy.ServeHTTP sampleBackend ResponseWriter.fresh repeatedAuthorization).sent =
        [sampleProxy.outbound repeatedAuthorization] ∧
      (sampleProxy.outbound repeatedAuthorization).Header.lookup "Authorization" =
        ["Bearer one"] ∧
      (sampleProxy.outbound repeatedAuthorization).Header.lookup "Referer" =
        ["https://example.org/"]) ∧
    (repeatedAuthorizationV1.Method ≠ "OPTIONS" ∧
      (sampleProxy.ServeHTTP sampleBackend ResponseWriter.fresh repeatedAuthorizationV1).sent =
        [sampleProxy.outbound repeatedAuthorizationV1] ∧
      (sampleProxy.outbound repeatedAuthorizationV1).Header.lookup "Authorization" =
        ["Bearer one", "Bearer two"]) :=
  have h := (ServeHTTP_authorization_referer sampleProxy sampleBackend ResponseWriter.fresh
    repeatedAuthorization (sampleProxy.outbound repeatedAuthorization) (by decide)
    (by decide)).1 (by decide)
  have h1 := (ServeHTTP_authorization_referer sampleProxy sampleBackend ResponseWriter.fresh
    repeatedAuthorizationV1 (sampleProxy.outbound repeatedAuthorizationV1) (by decide)
    (by decide)).2 (by decide) ⟨by decide, by decide⟩
  ⟨⟨by decide, by decide, h.1 "Bearer one" ["Bearer two"] (by decide),
    h.2 "https://example.org/" [] (by decide)⟩, ⟨by decide, by decide, h1.1⟩⟩

/-- C6: when the outbound call of a request that is not `OPTIONS` succeeds, the client
receives the status code of the backend and the body of the backend, and the header
`Access-Control-Allow-Origin` of the response carries the value `*` whatever the backend
sent for it; for a backend header in canonical form it carries `*` and nothing else. -/
theorem ServeHTTP_allows_any_origin (p : proxy) (client : Client) (req out : Request)
    (resp : Response) (hm : req.Method ≠ "OPTIONS")
    (hs : out ∈ (p.ServeHTTP client ResponseWriter.fresh req).sent)
    (hd : client.Do out = .ok resp) :
    (p.ServeHTTP client ResponseWriter.fresh req).fault = none ∧
    (p.ServeHTTP client ResponseWriter.fresh req).wr.status = some resp.StatusCode ∧
    (p.ServeHTTP client ResponseWriter.fresh req).wr.body = resp.Body ∧
    "*" ∈ (p.ServeHTTP client ResponseWriter.fresh req).wr.header.lookup
      "Access-Control-Allow-Origin" ∧
    (Header.Canonical resp.Header →
      (p.ServeHTTP client ResponseWriter.fresh req).wr.header.lookup
        "Access-Control-Allow-Origin" = ["*"]) := by
  obtain ⟨ho, hn⟩ := ServeHTTP_sent p client ResponseWriter.fresh req out hm hs
  subst ho
  rw [ServeHTTP_relays p client ResponseWriter.fresh req resp hm hn hd]
  refine ⟨rfl, rfl, ?_, ?_, ?_⟩
  · apply String.ext
    simp [ResponseWriter.Write, ResponseWriter.WriteHeader, ResponseWriter.fresh]
  · show "*" ∈ Header.lookup (copyHeader [] _) _
    rw [lookup_copyHeader]
    simp only [Header.lookup, List.nil_append]
    exact Header.mem_gather _ _ _ "*" ["*"]
      (Header.mem_store resp.Header (CanonicalMIMEHeaderKey "Access-Control-Allow-Origin") ["*"])
      (by rw [canonical_AllowOrigin]; exact canonical_AllowOrigin) (List.mem_singleton.mpr rfl)
  · intro hc
    show Header.lookup (copyHeader [] _) _ = _
    rw [lookup_copyHeader]
    simp only [Header.lookup, List.nil_append]
    rw [Header.gather_eq_lookup _
      (Header.Canonical_Set resp.Header hc _ "*" canonical_AllowOrigin)]
    rw [Header.lookup_Set, if_pos canonical_AllowOrigin]

theorem ServeHTTP_allows_any_origin_witness :
    (inbound "GET" "/dashboard" []).Method ≠ "OPTIONS" ∧
    (sampleProxy.ServeHTTP sampleBackend ResponseWriter.fresh
        (inbound "GET" "/dashboard" [])).wr.status = some 204 ∧
    (sampleProxy.ServeHTTP sampleBackend ResponseWriter.fresh
        (inbound "GET" "/dashboard" [])).wr.header.lookup "Access-Control-Allow-Origin" =
      ["*"] :=
  have h := ServeHTTP_allows_any_origin sampleProxy sampleBackend
    (inbound "GET" "/dashboard" []) (sampleProxy.outbound (inbound "GET" "/dashboard" []))
    { StatusCode := 204,
      Header := [("Access-Control-Allow-Origin", ["https://example.org"]),
        ("Set-Cookie", ["a=1", "b=2"])],
      Body := "done" }
    (by decide) (by decide) rfl
  ⟨by decide, h.2.1, h.2.2.2.2 ⟨by decide, by decide⟩⟩

/-- C7: when the outbound call of a request that is not `OPTIONS` fails, the client
receives what `http.Error(wr, "Server Error", 500)` writes, status 500 and the line
`Server Error`, which does not depend on the error; the failed call is the only request
the handler sends. -/
theorem ServeHTTP_transport_error_hidden (p : proxy) (client : Client) (req out : Request)
    (e : String) (hm : req.Method ≠ "OPTIONS")
    (hs : out ∈ (p.ServeHTTP client ResponseWriter.fresh req).sent)
    (hd : client.Do out = .error e) :
    (p.ServeHTTP client ResponseWriter.fresh req).wr =
      httpError ResponseWriter.fresh "Server Error" 500 ∧
    (p.ServeHTTP client ResponseWriter.fresh req).wr.status = some 500 ∧
    (p.ServeHTTP client ResponseWriter.fresh req).wr.body = "Server Error\n" ∧
    (p.ServeHTTP client ResponseWriter.fresh req).sent = [out] ∧
    (p.ServeHTTP client ResponseWriter.fresh req).fault = none := by
  obtain ⟨ho, hn⟩ := ServeHTTP_sent p client ResponseWriter.fresh req out hm hs
  subst ho
  rw [ServeHTTP_transport_fails p client ResponseWriter.fresh req e hm hn hd]
  exact ⟨rfl, httpError_fresh.1, httpError_fresh.2, rfl, rfl⟩

theorem ServeHTTP_transport_error_hidden_witness :
    (inbound "POST" "/api/v1/login" []).Method ≠ "OPTIONS" ∧
    (sampleProxy.ServeHTTP deadBackend ResponseWriter.fresh
        (inbound "POST" "/api/v1/login" [])).wr.status = some 500 ∧
    (sampleProxy.ServeHTTP deadBackend ResponseWriter.fresh
        (inbound "POST" "/api/v1/login" [])).wr.body = "Server Error\n" :=
  have h := ServeHTTP_transport_error_hidden sampleProxy deadBackend
    (inbound "POST" "/api/v1/login" [])
    (sampleProxy.outbound (inbound "POST" "/api/v1/login" []))
    "dial tcp localhost:8000: connect: connection refused" (by decide) (by decide) rfl
  ⟨by decide, h.2.1, h.2.2.1⟩

/-- C8: when the control plane answers the request of `getTunnel`, the result depends on
the answer as follows. With status 200 and a body that decodes to a tunnel list,
`getTunnel` returns the `public_url` of the first tunnel in list order whose `proto` is
`https`, without error, and stores it in `publicUrl`; when no tunnel of the list has
`proto` `https` it returns the empty string without error and leaves the proxy as it
was. With any other status it returns the empty string without error and leaves the
proxy as it was. -/
theorem getTunnel_result (p : proxy) (api : ControlPlane) (resp : Response)
    (hn : api.newRequestErr "GET" tunnelsURL = none)
    (hd : api.Do p.tunnelsRequest = .ok resp) :
    (resp.StatusCode = 200 →
      ∀ body tunnelList, api.ReadAll resp = .ok body → api.Unmarshal body = .ok tunnelList →
        (∀ before t after, tunnelList.Tunnels = before ++ t :: after →
          (∀ x ∈ before, x.Proto ≠ "https") → t.Proto = "https" →
          p.getTunnel api = ((t.PublicURL, none), { p with publicUrl := t.PublicURL })) ∧
        ((∀ x ∈ tunnelList.Tunnels, x.Proto ≠ "https") →
          p.getTunnel api = (("", none), p))) ∧
    (resp.StatusCode ≠ 200 → p.getTunnel api = (("", none), p)) := by
  rw [getTunnel_responded p api resp hn hd]
  refine ⟨?_, ?_⟩
  · intro hs body tunnelList hr hu
    simp only [hs, if_true, hr, hu]
    refine ⟨?_, ?_⟩
    · intro before t after hl hb ht
      rw [hl]
      exact scanTunnels_first p before after t hb ht
    · intro hb
      exact scanTunnels_none p _ hb
  · intro hs
    rw [if_neg hs]

theorem getTunnel_result_witness :
    (sampleProxy.getTunnel (controlPlane 200 sampleTunnels) =
      (("https://a.ngrok.app", none),
        { sampleProxy with publicUrl := "https://a.ngrok.app" })) ∧
    (sampleProxy.getTunnel (controlPlane 503 sampleTunnels) = (("", none), sampleProxy)) :=
  ⟨((getTunnel_result sampleProxy (controlPlane 200 sampleTunnels)
      { StatusCode := 200, Header := [], Body := "json" } rfl rfl).1 rfl "json"
      { Tunnels := sampleTunnels } rfl rfl).1
      [{ Id := "tn_1", PublicURL := "tcp://0.tcp.ngrok.io:1", Proto := "tcp" }]
      { Id := "tn_2", PublicURL := "https://a.ngrok.app", Proto := "https" }
      [{ Id := "tn_3", PublicURL := "https://b.ngrok.app", Proto := "https" }]
      rfl (by decide) rfl,
    (getTunnel_result sampleProxy (controlPlane 503 sampleTunnels)
      { StatusCode := 503, Header := [], Body := "json" } rfl rfl).2 (by decide)⟩

/-- C9: for a request that is not `OPTIONS`, whose path does not start with `/api/v2` and
whose header is in canonical form, the outbound request carries `Accept` with the single
value `*/*` and, under every other key, exactly the values of the inbound request in
their order; once `http.NewRequest` accepts the URL there is one such outbound request. -/
theorem ServeHTTP_copies_headers (p : proxy) (client : Client) (wr : ResponseWriter)
    (req : Request) (hm : req.Method ≠ "OPTIONS")
    (h2 : ¬ "/api/v2".data <+: req.URL.Path.data) (hc : Header.Canonical req.Header) :
    (∀ out ∈ (p.ServeHTTP client wr req).sent,
      out.Header.lookup "Accept" = ["*/*"] ∧
      ∀ k, k ≠ "Accept" → out.Header.lookup k = req.Header.lookup k) ∧
    (client.newRequestErr req.Method (p.ServeHTTP client wr req).req.URL = none →
      (p.ServeHTTP client wr req).sent.length = 1) := by
  have hf := HasPrefix_eq_false req.URL.Path "/api/v2" h2
  refine ⟨?_, ?_⟩
  · intro out hs
    obtain ⟨ho, _⟩ := ServeHTTP_sent p client wr req out hm hs
    subst ho
    refine ⟨?_, ?_⟩
    · rw [outbound_lookup_plain p req hf, if_pos rfl]
    · intro k hk
      rw [outbound_lookup_plain p req hf, if_neg hk, Header.gather_eq_lookup _ hc]
  · intro hn
    obtain ⟨hreq, _, hsent⟩ := ServeHTTP_shape p client wr req hm
    rw [hreq] at hn
    cases hd : client.Do (p.outbound req) with
    | error e => rw [ServeHTTP_transport_fails p client wr req e hm hn hd]; rfl
    | ok resp => rw [ServeHTTP_relays p client wr req resp hm hn hd]; rfl

theorem ServeHTTP_copies_headers_witness :
    browserRequest.Method ≠ "OPTIONS" ∧ Header.Canonical browserRequest.Header ∧
    (sampleProxy.ServeHTTP sampleBackend ResponseWriter.fresh browserRequest).sent =
      [sampleProxy.outbound browserRequest] ∧
    (sampleProxy.outbound browserRequest).Header.lookup "Accept" = ["*/*"] ∧
    (sampleProxy.outbound browserRequest).Header.lookup "Cookie" = ["a=1", "b=2"] :=
  have h := (ServeHTTP_copies_headers sampleProxy sampleBackend ResponseWriter.fresh
    browserRequest (by decide) (by decide) ⟨by decide, by decide⟩).1
      (sampleProxy.outbound browserRequest) (by decide)
  ⟨by decide, ⟨by decide, by decide⟩, by decide, h.1, h.2 "Cookie" (by decide)⟩

/-- C10: when `exec.LookPath("ngrok")` fails, `startNgrok` returns that error after the
`LookPath` call alone, so without `os.StartProcess`, and `main` ends in `log.Fatal`
right after it, with no call of `getTunnel` and no `http.ListenAndServe`. More
generally no run of `main` in which `startNgrok` returns an error calls `getTunnel` or
`http.ListenAndServe`. -/
theorem main_never_listens_without_agent (flags : Flags) (sys : System) (e : String)
    (hl : sys.LookPath "ngrok" = .error e) :
    (∀ (p : proxy) (port : String),
      p.startNgrok sys port = (.error e, [.lookPath "ngrok"])) ∧
    main flags sys = [.lookPath "ngrok", .fatal ("Could not start ngrok" ++ e)] ∧
    (∀ ev ∈ main flags sys,
      ev.isStartProcess = false ∧ ev.isGetTunnel = false ∧ ev.isListen = false) ∧
    (∀ (sys1 : System) (e1 : String),
      (flags.handler.startNgrok sys1 flags.listen).1 = .error e1 →
      (main flags sys1).getLast? = some (.fatal ("Could not start ngrok" ++ e1)) ∧
      ∀ ev ∈ main flags sys1, ev.isGetTunnel = false ∧ ev.isListen = false) := by
  have h1 : ∀ (p : proxy) (port : String),
      p.startNgrok sys port = (.error e, [.lookPath "ngrok"]) := by
    intro p port
    unfold proxy.startNgrok
    rw [hl]
  have h2 : main flags sys = [.lookPath "ngrok", .fatal ("Could not start ngrok" ++ e)] := by
    rw [main_start_failed flags sys e _ (h1 _ _)]
    rfl
  refine ⟨h1, h2, ?_, ?_⟩
  · rw [h2]
    simp [Event.isStartProcess, Event.isGetTunnel, Event.isListen]
  · intro sys1 e1 hs
    have hs1 : flags.handler.startNgrok sys1 flags.listen =
        (.error e1, (flags.handler.startNgrok sys1 flags.listen).2) := by
      rw [← hs]
    rw [main_start_failed flags sys1 e1 _ hs1]
    refine ⟨by simp, ?_⟩
    intro ev hev
    rcases List.mem_append.mp hev with h | h
    · exact startNgrok_events _ _ _ ev h
    · rw [List.mem_singleton.mp h]
      exact ⟨rfl, rfl⟩

theorem main_never_listens_without_agent_witness :
    bareSystem.LookPath "ngrok" =
      .error "exec: \"ngrok\": executable file not found in $PATH" ∧
    main sampleFlags bareSystem =
      [.lookPath "ngrok",
        .fatal ("Could not start ngrok" ++
          "exec: \"ngrok\": executable file not found in $PATH")] :=
  ⟨rfl,
    (main_never_listens_without_agent sampleFlags bareSystem
      "exec: \"ngrok\": executable file not found in $PATH" rfl).2.1⟩

end SoulSync
